import Mathlib

/-!
# Verification of the Smart Coding MCP server (`src/server.py`)

A shallow embedding of the GitHub MCP server in `src/server.py`.  Pure
helpers (`parse_github_error`, `validate_header_token`, base64 encoding)
become Lean functions.  Each remotely invocable tool becomes a function of
its inputs and of the platform responses it would receive; since every
handler raises `ToolError` on credential failure and otherwise returns a
string, a tool call is modelled as `Except String String` (the `.error`
case is the raised `ToolError` message).  To reason about which outbound
HTTP requests a call issues, every tool also returns the list of request
URLs it issued, in program order; a raised `ToolError` before any request
yields the empty list.

The `verify_login` polling loop is modelled with a discrete clock: the
loop body is instantaneous (network latency is abstracted away) and each
`asyncio.sleep(5)` advances the clock by 5 seconds, so the n-th poll is
issued at elapsed time `5 * n` and the `while` guard
`time() - start < 120` reads `5 * n < 120`.

Concurrent fan-outs (`asyncio.gather`) preserve the order of their task
list, so a gather over a list of fetches is modelled as `List.map` of the
per-item fetch over that list.
-/

namespace SmartCoding

/-- An HTTP response as the handlers observe it: the status code and the
raw body text (`resp.text`).  Endpoint-specific response types extend this
with the JSON fields the code actually reads. -/
structure Response where
  status_code : Nat
  text : String
  deriving Repr, DecidableEq

/-- Embeds `parse_github_error` (src/server.py lines 49-79): translates an
HTTP status code into the fixed diagnostic string table. -/
def parse_github_error (resp : Response) : String :=
  if resp.status_code = 401 then
    "401 Unauthorized: Your token is invalid, expired, or revoked."
  else if resp.status_code = 403 then
    "403 Forbidden: Access denied. Possibilities:\n1. The App is not installed on this specific repository/organization.\n2. Organization SAML/SSO enforcement is blocking access.\n3. API Rate limit exceeded."
  else if resp.status_code = 404 then
    "404 Not Found: The repository does not exist OR the App lacks permission to see it.\n(GitHub hides private repos as 404s to prevent leaking their existence)."
  else if resp.status_code = 409 then
    "409 Conflict: The file has changed since you last read it (Git Conflict)."
  else if resp.status_code = 422 then
    "422 Unprocessable Entity: Validation failed (e.g., Pull Request already exists)."
  else
    "GitHub API Error " ++ toString resp.status_code ++ ": " ++ resp.text

/-- Lower-casing of a string, character by character (used to model the
case-insensitive header lookup of `httpx` header dictionaries). -/
def lowerStr (s : String) : String := String.mk (s.data.map Char.toLower)

/-- Python's `str.startswith` on one candidate: is `p` a prefix of `s`? -/
def strStartsWith (s p : String) : Bool := p.data.isPrefixOf s.data

/-- The header dictionary of an inbound request, with case-insensitive
lookup and a default, modelling `headers.get(key, default)` on `httpx`
headers. -/
def headersGet (hs : List (String × String)) (key default : String) : String :=
  match (hs.map (fun p => (lowerStr p.1, p.2))).lookup (lowerStr key) with
  | some v => v
  | none => default

/-- The inbound call context seen by `validate_header_token`:
`ctx.request_context.request.headers`.  `none` models the case where
reading the request object or its headers raises an exception (which the
function's blanket `except Exception` turns into the same `ToolError`). -/
structure Context where
  headers : Option (List (String × String))

/-- The `ToolError` message raised by `validate_header_token`
(src/server.py lines 42-46).  It names the login operation
`initiate_login` as the remediation. -/
def authFailedMessage : String :=
  "Authentication Failed.\nThe tool attempted to access GitHub but no valid token was found header.\nPlease RUN the \x27initiate_login\x27 tool now to fix this."

/-- Embeds `validate_header_token` (src/server.py lines 20-46).  The
process environment is passed in because `os.environ` is in scope in the
module (the module reads `GITHUB_CLIENT_ID` from it at load time); note
that this function never consults it — the token comes from the
`user-access-token` header only.  Any failure (missing headers, empty
token, unrecognized prefix) collapses to the single `ToolError`. -/
def validate_header_token (env : List (String × String)) (ctx : Context) :
    Except String String :=
  match ctx.headers with
  | none => Except.error authFailedMessage
  | some hs =>
    let token := headersGet hs "user-access-token" ""
    if token = "" then Except.error authFailedMessage
    else if !(strStartsWith token "ghu" || strStartsWith token "gho" ||
              strStartsWith token "ghp") then
      Except.error authFailedMessage
    else Except.ok token

/-- The base64 alphabet, indexed 0-63 (RFC 4648). -/
def b64Char (n : Nat) : Char :=
  "ABCDEFGHIJKLMNOPQRSTUVWXYZabcdefghijklmnopqrstuvwxyz0123456789+/".data.getD n '='

/-- Standard base64 encoding of a byte list, three bytes at a time, with
`=` padding: models Python's `base64.b64encode`. -/
def b64EncodeGroups : List Nat → List Char
  | [] => []
  | [b1] =>
    [b64Char (b1 / 4), b64Char (b1 % 4 * 16), '=', '=']
  | [b1, b2] =>
    [b64Char (b1 / 4), b64Char (b1 % 4 * 16 + b2 / 16), b64Char (b2 % 16 * 4), '=']
  | b1 :: b2 :: b3 :: rest =>
    b64Char (b1 / 4) :: b64Char (b1 % 4 * 16 + b2 / 16) ::
    b64Char (b2 % 16 * 4 + b3 / 64) :: b64Char (b3 % 64) :: b64EncodeGroups rest

/-- Models `base64.b64encode(s.encode("utf-8")).decode("utf-8")`:
UTF-8 encode the string, then base64 the bytes. -/
def b64encode (s : String) : String :=
  String.mk (b64EncodeGroups (s.toUTF8.toList.map (fun b => b.toNat)))

/-! ## Device-flow verification loop (`verify_login`, src/server.py lines 126-171) -/

/-- The JSON body of one token-endpoint poll response, restricted to the
two keys the loop reads: `access_token` (present iff the user has
authorized) and `error`. -/
structure PollData where
  access_token : Option String
  error : Option String
  deriving Repr, DecidableEq

/-- The success message of `verify_login` (lines 153-163), relaying the
token verbatim, including the literal-brace JSON snippet. -/
def verifySuccessMessage (token : String) : String :=
  "SUCCESS! Token: " ++ token ++
  "\n\nCONFIGURATION STEP:\n1. Copy this token.\n2. Open your Claude Desktop config file.\n3. Add the token to the \x27env\x27 section for \x27smart-coding\x27:\n   \"env\": \x7b\n     \"GITHUB_PERSONAL_ACCESS_TOKEN\": \"" ++
  token ++ "\"\n   \x7d\n4. Restart Claude."

/-- The terminal-expiry message of `verify_login` (line 167). -/
def expiredMessage : String :=
  "The login code expired. Please start over with \x27initiate_login\x27."

/-- The budget-exhausted message of `verify_login` (line 171). -/
def timeoutMessage : String :=
  "Timeout: User did not authorize in time. Please try again."

/-- The observable outcome of one `verify_login` run: the returned string,
the elapsed times (in seconds) at which the loop issued its poll requests,
and the elapsed time at which the function returned. -/
structure RunTrace where
  result : String
  pollTimes : List Nat
  returnTime : Nat
  deriving Repr, DecidableEq

/-- The polling loop of `verify_login` from iteration `n` onwards, under
the discrete clock (iteration `n` starts at elapsed time `5 * n`; the
`while` guard is `elapsed < 120`).  `polls n` is the parsed JSON of the
n-th poll response.  Order of checks matches the source: `access_token`
presence first, then `error == "expired_token"`, else sleep 5 s and loop. -/
def verify_login_trace_aux (polls : Nat → PollData) (n : Nat) : RunTrace :=
  if h : n * 5 < 120 then
    let poll_data := polls n
    match poll_data.access_token with
    | some token => ⟨verifySuccessMessage token, [5 * n], 5 * n⟩
    | none =>
      if poll_data.error = some "expired_token" then ⟨expiredMessage, [5 * n], 5 * n⟩
      else
        let rest := verify_login_trace_aux polls (n + 1)
        ⟨rest.result, 5 * n :: rest.pollTimes, rest.returnTime⟩
  else ⟨timeoutMessage, [], n * 5⟩
termination_by 120 - n * 5
decreasing_by omega

/-- The full observable run of `verify_login device_code` against a token
endpoint whose n-th poll response parses to `polls n`. -/
def verify_login_trace (polls : Nat → PollData) : RunTrace :=
  verify_login_trace_aux polls 0

/-- The string `verify_login` returns. -/
def verify_login (polls : Nat → PollData) : String :=
  (verify_login_trace polls).result

/-! ## Outbound request URLs (as built by the handlers) -/

/-- GitHub API base URL. -/
def apiBase : String := "https://api.github.com"

/-- `GET /user`. -/
def userUrl : String := apiBase ++ "/user"

/-- `GET /user/repos?...` (top 10 recently updated, owner type). -/
def userReposUrl : String := apiBase ++ "/user/repos?sort=updated&per_page=10&type=owner"

/-- `GET /search/repositories?...`. -/
def searchUrl (query : String) : String :=
  apiBase ++ "/search/repositories?q=" ++ query ++ "+user:@me&per_page=5"

/-- `GET /repos/{owner}/{repo}/git/trees/{branch}?recursive=1`. -/
def treesUrl (owner repo branch : String) : String :=
  apiBase ++ "/repos/" ++ owner ++ "/" ++ repo ++ "/git/trees/" ++ branch ++ "?recursive=1"

/-- `GET /repos/{owner}/{repo}/languages`. -/
def languagesUrl (owner repo : String) : String :=
  apiBase ++ "/repos/" ++ owner ++ "/" ++ repo ++ "/languages"

/-- `GET /repos/{owner}/{repo}/dependency-graph/sbom`. -/
def sbomUrl (owner repo : String) : String :=
  apiBase ++ "/repos/" ++ owner ++ "/" ++ repo ++ "/dependency-graph/sbom"

/-- `GET /repos/{owner}/{repo}/readme`. -/
def readmeUrl (owner repo : String) : String :=
  apiBase ++ "/repos/" ++ owner ++ "/" ++ repo ++ "/readme"

/-- `GET`/`PUT` `/repos/{owner}/{repo}/contents/{path}`. -/
def contentsUrl (owner repo path : String) : String :=
  apiBase ++ "/repos/" ++ owner ++ "/" ++ repo ++ "/contents/" ++ path

/-- `GET /repos/{owner}/{repo}/commits?path={path}&per_page=3`. -/
def commitsUrl (owner repo path : String) : String :=
  apiBase ++ "/repos/" ++ owner ++ "/" ++ repo ++ "/commits?path=" ++ path ++ "&per_page=3"

/-- `GET /repos/{owner}/{repo}/commits/{sha}/pulls`. -/
def commitPullsUrl (owner repo sha : String) : String :=
  apiBase ++ "/repos/" ++ owner ++ "/" ++ repo ++ "/commits/" ++ sha ++ "/pulls"

/-- `GET /repos/{owner}/{repo}/git/ref/heads/{branch}`. -/
def refUrl (owner repo branch : String) : String :=
  apiBase ++ "/repos/" ++ owner ++ "/" ++ repo ++ "/git/ref/heads/" ++ branch

/-- `POST /repos/{owner}/{repo}/git/refs`. -/
def createRefUrl (owner repo : String) : String :=
  apiBase ++ "/repos/" ++ owner ++ "/" ++ repo ++ "/git/refs"

/-- `POST /repos/{owner}/{repo}/pulls`. -/
def createPullUrl (owner repo : String) : String :=
  apiBase ++ "/repos/" ++ owner ++ "/" ++ repo ++ "/pulls"

/-- The result type of a tool call: `.error` is a raised `ToolError`,
`.ok` the returned string; paired with the list of outbound request URLs
the call issued, in program order. -/
abbrev ToolRun := Except String String × List String

/-! ## Phase 0: discovery (`get_user_context`, `search_repositories`) -/

/-- Parsed `GET /user` response: status, raw text, and the two JSON keys
read (`login`, `name`); `none` models an absent key (Python `dict.get`). -/
structure UserResp extends Response where
  login : Option String
  name : Option String
  deriving Repr, DecidableEq

/-- One entry of the `GET /user/repos` JSON list, restricted to the keys
read: `private`, `full_name`, `description`. -/
structure OwnedRepo where
  isPrivate : Bool
  full_name : Option String
  description : Option String
  deriving Repr, DecidableEq

/-- Parsed `GET /user/repos` response. -/
structure ReposResp extends Response where
  repos : List OwnedRepo
  deriving Repr, DecidableEq

/-- Embeds `get_user_context` (src/server.py lines 179-222): validate the
token, fan out `GET /user` and `GET /user/repos` concurrently, fail the
whole call if the identity fetch fails, degrade the repo listing to an
inline error line if the repo fetch fails. -/
def get_user_context (env : List (String × String)) (ctx : Context)
    (user_resp : UserResp) (repos_resp : ReposResp) : ToolRun :=
  match validate_header_token env ctx with
  | Except.error e => (Except.error e, [])
  | Except.ok _ =>
    let log := [userUrl, userReposUrl]
    if user_resp.status_code ≠ 200 then
      (Except.ok ("User Check Failed: " ++ parse_github_error user_resp.toResponse), log)
    else
      let user_info := "User: " ++ user_resp.login.getD "None" ++ " (" ++
        user_resp.name.getD "No Name" ++ ")"
      let repo_list :=
        if repos_resp.status_code = 200 then
          repos_resp.repos.map (fun r =>
            "- " ++ (if r.isPrivate then "[Private]" else "[Public]") ++ " " ++
            r.full_name.getD "None" ++ ": " ++ r.description.getD "No description")
        else
          ["Error fetching repositories: " ++ parse_github_error repos_resp.toResponse]
      (Except.ok (user_info ++ "\n===================================\nTop 10 Recent Repositories:\n" ++
        String.intercalate "\n" repo_list), log)

/-- One item of the search-results JSON, restricted to the keys read. -/
structure SearchItem where
  isPrivate : Bool
  full_name : String
  updated_at : String
  deriving Repr, DecidableEq

/-- Parsed `GET /search/repositories` response. -/
structure SearchResp extends Response where
  items : List SearchItem
  deriving Repr, DecidableEq

/-- Embeds `search_repositories` (src/server.py lines 225-259). -/
def search_repositories (env : List (String × String)) (ctx : Context)
    (query : String) (resp : SearchResp) : ToolRun :=
  match validate_header_token env ctx with
  | Except.error e => (Except.error e, [])
  | Except.ok _ =>
    let log := [searchUrl query]
    if resp.status_code ≠ 200 then
      (Except.ok ("Search failed: " ++ parse_github_error resp.toResponse), log)
    else if resp.items.isEmpty then
      (Except.ok ("No repositories found matching \x27" ++ query ++ "\x27."), log)
    else
      (Except.ok ("Search Results for \x27" ++ query ++ "\x27:\n" ++
        String.intercalate "\n" (resp.items.map (fun repo =>
          "- " ++ (if repo.isPrivate then "[Private]" else "[Public]") ++ " " ++
          repo.full_name ++ " (Updated: " ++ repo.updated_at.take 10 ++ ")"))), log)

/-! ## Phase 1: orientation (`get_repository_map`, `get_project_overview`) -/

/-- One entry of the git tree JSON, restricted to the keys read:
`path` and `type` (`"blob"` for files, `"tree"` for directories). -/
structure TreeEntry where
  path : String
  type : String
  deriving Repr, DecidableEq

/-- Parsed `GET /git/trees/{branch}?recursive=1` response: the
`truncated` flag and the `tree` list. -/
structure TreeResp extends Response where
  truncated : Bool
  tree : List TreeEntry
  deriving Repr, DecidableEq

/-- The partial-structure warning returned when the platform reports the
tree itself was truncated (src/server.py line 293). -/
def repoTooLargeWarning : String := "Warning: Repo is too large. Showing partial structure."

/-- The blob-only path listing of a tree response, in tree order
(src/server.py line 296): directories are dropped. -/
def repositoryMapFiles (resp : TreeResp) : List String :=
  (resp.tree.filter (fun item => item.type = "blob")).map (fun item => item.path)

/-- Embeds `get_repository_map` (src/server.py lines 267-299): on a
non-200 status return the translated error; if the platform flags the
tree as truncated return the distinct partial-structure warning; else
list the blob paths, bounded to the first 200. -/
def get_repository_map (env : List (String × String)) (ctx : Context)
    (owner repo branch : String) (resp : TreeResp) : ToolRun :=
  match validate_header_token env ctx with
  | Except.error e => (Except.error e, [])
  | Except.ok _ =>
    let log := [treesUrl owner repo branch]
    if resp.status_code ≠ 200 then
      (Except.ok (parse_github_error resp.toResponse), log)
    else if resp.truncated then
      (Except.ok repoTooLargeWarning, log)
    else
      (Except.ok ("Repository Map for " ++ owner ++ "/" ++ repo ++ ":\n\n" ++
        String.intercalate "\n" ((repositoryMapFiles resp).take 200)), log)

/-- Parsed `GET /languages` response: the keys of the JSON object. -/
structure LangsResp extends Response where
  keys : List String
  deriving Repr, DecidableEq

/-- One package of the SBOM JSON, restricted to the keys read. -/
structure SbomPackage where
  name : Option String
  versionInfo : Option String
  deriving Repr, DecidableEq

/-- Parsed `GET /dependency-graph/sbom` response
(the `sbom.packages` list). -/
structure SbomResp extends Response where
  packages : List SbomPackage
  deriving Repr, DecidableEq

/-- Parsed `GET /readme` response.  `content` is the result of
`base64.b64decode(json["content"]).decode("utf-8")`: `some` holds the
decoded text, `none` models any exception in that decode chain (missing
key, invalid base64 or UTF-8), which the handler catches. -/
structure ReadmeResp extends Response where
  content : Option String
  deriving Repr, DecidableEq

/-- The language list of `get_project_overview` (src/server.py line 328):
JSON keys on success, the `"Unknown"` placeholder on any failure. -/
def overview_languages (langs_resp : LangsResp) : List String :=
  if langs_resp.status_code = 200 then langs_resp.keys else ["Unknown"]

/-- The tech-stack list of `get_project_overview` (lines 331-337):
formatted packages on success, the placeholder on any failure. -/
def overview_stack (sbom_resp : SbomResp) : List String :=
  if sbom_resp.status_code = 200 then
    sbom_resp.packages.map (fun pkg =>
      pkg.name.getD "None" ++ " (" ++ pkg.versionInfo.getD "" ++ ")")
  else ["(Dependency Graph disabled for this repo)"]

/-- The README snippet of `get_project_overview` (lines 340-347): first
500 characters of the decoded content plus an ellipsis on success,
a decode-error placeholder if decoding raised, a missing-README
placeholder on any non-200 status. -/
def overview_readme (readme_resp : ReadmeResp) : String :=
  if readme_resp.status_code = 200 then
    match readme_resp.content with
    | some content => content.take 500 ++ "..."
    | none => "Error decoding README."
  else "No README found."

/-- Embeds `get_project_overview` (src/server.py lines 302-355): validate
the token, fan out the three fetches concurrently, degrade each
sub-result independently, and always return the composite overview. -/
def get_project_overview (env : List (String × String)) (ctx : Context)
    (owner repo : String) (langs_resp : LangsResp) (sbom_resp : SbomResp)
    (readme_resp : ReadmeResp) : ToolRun :=
  match validate_header_token env ctx with
  | Except.error e => (Except.error e, [])
  | Except.ok _ =>
    let log := [languagesUrl owner repo, sbomUrl owner repo, readmeUrl owner repo]
    (Except.ok ("PROJECT OVERVIEW: " ++ owner ++ "/" ++ repo ++
      "\n===================================\nLanguages: " ++
      String.intercalate ", " (overview_languages langs_resp) ++
      "\nTech Stack: " ++
      String.intercalate ", " ((overview_stack sbom_resp).take 10) ++
      "\nREADME Preview:\n" ++ overview_readme readme_resp), log)

/-! ## Phase 2: inspection (`inspect_target_file`, `read_references`) -/

/-- Parsed `GET /contents/{path}` response.  `content` is the decoded
file body (`none` models a decode exception), `sha` the blob SHA read
from the JSON. -/
structure ContentsResp extends Response where
  content : Option String
  sha : String
  deriving Repr, DecidableEq

/-- One commit of the `GET /commits` JSON list, restricted to the keys
read: `sha`, `commit.message`, `commit.author.name`. -/
structure CommitEntry where
  sha : String
  message : String
  author_name : String
  deriving Repr, DecidableEq

/-- Parsed `GET /commits?path=...` response. -/
structure CommitsResp extends Response where
  commits : List CommitEntry
  deriving Repr, DecidableEq

/-- One pull request of the `GET /commits/{sha}/pulls` JSON list,
restricted to the keys read. -/
structure PullEntry where
  number : Nat
  title : String
  body : String
  deriving Repr, DecidableEq

/-- Parsed `GET /commits/{sha}/pulls` response. -/
structure PullsResp extends Response where
  pulls : List PullEntry
  deriving Repr, DecidableEq

/-- The first line of a commit message: `msg.split('\n')[0]`. -/
def firstLine (msg : String) : String :=
  match msg.splitOn "\n" with
  | [] => ""
  | line :: _ => line

/-- The history fold of `inspect_target_file` (src/server.py lines
393-400): accumulates the history text and records the first truthy
commit SHA (Python's `if not latest_commit_sha` treats both `None` and
`""` as unset; the unset state is modelled by `""`). -/
def historyFold (commits : List CommitEntry) : String × String :=
  commits.foldl (fun acc c =>
    let latest := if acc.2 = "" then c.sha else acc.2
    (acc.1 ++ "- " ++ c.author_name ++ ": " ++ firstLine c.message ++ "\n", latest))
    ("", "")

/-- The message produced if decoding the fetched file raises: the
exception escapes the handler uncaught, so the call fails rather than
returning a string. -/
def uncaughtDecodeError : String := "Unhandled exception while decoding file content."

/-- Embeds `inspect_target_file` (src/server.py lines 363-419): a strict
sequential chain — fetch content (abort on non-200), fetch up to three
recent commits (degrade to empty history on failure), and only when a
latest commit SHA was found, fetch its linked pull requests. -/
def inspect_target_file (env : List (String × String)) (ctx : Context)
    (owner repo path : String) (content_resp : ContentsResp)
    (history_resp : CommitsResp) (pr_resp : PullsResp) : ToolRun :=
  match validate_header_token env ctx with
  | Except.error e => (Except.error e, [])
  | Except.ok _ =>
    let log1 := [contentsUrl owner repo path]
    if content_resp.status_code ≠ 200 then
      (Except.ok (parse_github_error content_resp.toResponse), log1)
    else
      match content_resp.content with
      | none => (Except.error uncaughtDecodeError, log1)
      | some content =>
        let current_sha := content_resp.sha
        let log2 := log1 ++ [commitsUrl owner repo path]
        let commits := if history_resp.status_code = 200 then history_resp.commits else []
        let folded := historyFold commits
        let history_text := folded.1
        let latest_commit_sha := folded.2
        let prStep :=
          if latest_commit_sha ≠ "" then
            (if pr_resp.status_code = 200 then
              match pr_resp.pulls with
              | pr :: _ =>
                "PR #" ++ toString pr.number ++ " - " ++ pr.title ++ "\n" ++
                pr.body.take 200 ++ "..."
              | [] => "No associated PR found."
            else "No associated PR found.",
            log2 ++ [commitPullsUrl owner repo latest_commit_sha])
          else ("No associated PR found.", log2)
        (Except.ok ("DEEP INSPECTION: " ++ path ++ "\nFile SHA: " ++ current_sha ++
          " (Required for updates)\n===================================\nRecent History:\n" ++
          history_text ++ "\nBusiness Intent (PR):\n" ++ prStep.1 ++
          "\n===================================\n" ++ content), prStep.2)

/-- Embeds the inner `fetch_one` helper of `read_references`
(src/server.py lines 436-449): an independently fallible per-path fetch
that renders its own success block or inline error marker.  `platform p`
is the contents response for path `p`. -/
def fetch_one (platform : String → ContentsResp) (path : String) : String :=
  let resp := platform path
  if resp.status_code = 200 then
    match resp.content with
    | some content => "--- REFERENCE: " ++ path ++ " ---\n" ++ content ++ "\n"
    | none => "--- ERROR: Could not decode " ++ path ++ " ---\n"
  else
    "--- ERROR: " ++ path ++ " (" ++ parse_github_error resp.toResponse ++ ") ---\n"

/-- The per-path result blocks of `read_references`, one per requested
path in request order (`asyncio.gather` preserves task order). -/
def read_references_results (platform : String → ContentsResp)
    (paths : List String) : List String :=
  paths.map (fetch_one platform)

/-- Embeds `read_references` (src/server.py lines 422-456): validate the
token, fan out one contents fetch per path, and join the per-path blocks
with newlines. -/
def read_references (env : List (String × String)) (ctx : Context)
    (owner repo : String) (platform : String → ContentsResp)
    (paths : List String) : ToolRun :=
  match validate_header_token env ctx with
  | Except.error e => (Except.error e, [])
  | Except.ok _ =>
    (Except.ok (String.intercalate "\n" (read_references_results platform paths)),
     paths.map (contentsUrl owner repo))

/-! ## Phase 3: integration (write path) -/

/-- Parsed `GET /git/ref/heads/{branch}` response:
`json()["object"]["sha"]`. -/
structure RefResp extends Response where
  sha : String
  deriving Repr, DecidableEq

/-- The JSON payload of the branch-creation `POST /git/refs` request. -/
structure CreateRefPayload where
  ref : String
  sha : String
  deriving Repr, DecidableEq

/-- Embeds `initialize_workspace` (src/server.py lines 464-503): read the
base branch SHA, then create a branch named from the current unix time
(`now`).  `create` is the platform's response to the branch-creation
request. -/
def initialize_workspace (env : List (String × String)) (ctx : Context)
    (owner repo base_branch : String) (now : Nat)
    (ref_resp : RefResp) (create : CreateRefPayload → Response) : ToolRun :=
  match validate_header_token env ctx with
  | Except.error e => (Except.error e, [])
  | Except.ok _ =>
    let new_branch := "docs/update-" ++ toString now
    let log1 := [refUrl owner repo base_branch]
    if ref_resp.status_code ≠ 200 then
      (Except.ok ("Failed to find base branch \x27" ++ base_branch ++ "\x27: " ++
        parse_github_error ref_resp.toResponse), log1)
    else
      let base_sha := ref_resp.sha
      let create_resp := create ⟨"refs/heads/" ++ new_branch, base_sha⟩
      let log2 := log1 ++ [createRefUrl owner repo]
      if create_resp.status_code = 201 then
        (Except.ok ("Workspace initialized. Created branch: \x27" ++ new_branch ++ "\x27"), log2)
      else
        (Except.ok ("Error creating branch: " ++ parse_github_error create_resp), log2)

/-- The JSON payload of the `PUT /contents/{path}` update request
(src/server.py lines 521-526): commit message, base64-encoded content,
target branch, and the caller-supplied blob SHA as the
optimistic-concurrency precondition. -/
structure UpdatePayload where
  message : String
  content : String
  branch : String
  sha : String
  deriving Repr, DecidableEq

/-- The payload `commit_file_update` submits, built from its arguments:
the new content is base64 encoded and `original_sha` is carried in the
`sha` field. -/
def commit_update_payload (branch new_content original_sha message : String) :
    UpdatePayload :=
  { message := message, content := b64encode new_content, branch := branch,
    sha := original_sha }

/-- Embeds `commit_file_update` (src/server.py lines 506-539): validate
the token, build the guarded update payload, submit it, and translate any
non-200/201 status through `parse_github_error`.  `platform` is the
platform's response as a function of the submitted payload. -/
def commit_file_update (env : List (String × String)) (ctx : Context)
    (owner repo branch path new_content original_sha message : String)
    (platform : UpdatePayload → Response) : ToolRun :=
  match validate_header_token env ctx with
  | Except.error e => (Except.error e, [])
  | Except.ok _ =>
    let payload := commit_update_payload branch new_content original_sha message
    let resp := platform payload
    let log := [contentsUrl owner repo path]
    if resp.status_code = 200 ∨ resp.status_code = 201 then
      (Except.ok ("File \x27" ++ path ++ "\x27 successfully updated on branch \x27" ++
        branch ++ "\x27."), log)
    else
      (Except.ok ("Update failed: " ++ parse_github_error resp), log)

/-- The JSON payload of the `POST /pulls` request. -/
structure PrPayload where
  title : String
  body : String
  head : String
  base : String
  deriving Repr, DecidableEq

/-- Parsed `POST /pulls` response (only `html_url` is read on success). -/
structure PullCreateResp extends Response where
  html_url : String
  deriving Repr, DecidableEq

/-- Embeds `submit_review_request` (src/server.py lines 542-567). -/
def submit_review_request (env : List (String × String)) (ctx : Context)
    (owner repo head_branch title body base_branch : String)
    (platform : PrPayload → PullCreateResp) : ToolRun :=
  match validate_header_token env ctx with
  | Except.error e => (Except.error e, [])
  | Except.ok _ =>
    let payload : PrPayload :=
      { title := title, body := body, head := head_branch, base := base_branch }
    let resp := platform payload
    let log := [createPullUrl owner repo]
    if resp.status_code = 201 then
      (Except.ok ("Success! PR Created: " ++ resp.html_url), log)
    else
      (Except.ok ("PR Creation failed: " ++ parse_github_error resp.toResponse), log)

/-- The invalid-credential condition of the spec: the header token is
missing (or unreadable), empty, or does not start with one of the three
allow-listed prefixes `ghu`, `gho`, `ghp`. -/
def invalidCredential (ctx : Context) : Prop :=
  ctx.headers = none ∨
  ∃ hs, ctx.headers = some hs ∧
    (headersGet hs "user-access-token" "" = "" ∨
     (strStartsWith (headersGet hs "user-access-token" "") "ghu" = false ∧
      strStartsWith (headersGet hs "user-access-token" "") "gho" = false ∧
      strStartsWith (headersGet hs "user-access-token" "") "ghp" = false))

/-! ## Helper lemmas -/

/-- A string that does not start with `b` is never `b` followed by
anything. -/
theorem ne_append_of_not_startsWith (a b t : String)
    (h : strStartsWith a b = false) : a ≠ b ++ t := by
  intro he
  have h2 : strStartsWith (b ++ t) b = true := by
    simp [strStartsWith, String.data_append, List.isPrefixOf_iff_prefix]
  rw [he] at h
  rw [h] at h2
  exact Bool.noConfusion h2

/-- Any invalid credential makes `validate_header_token` raise the single
`ToolError`. -/
theorem validate_header_token_invalid (env : List (String × String))
    (ctx : Context) (h : invalidCredential ctx) :
    validate_header_token env ctx = Except.error authFailedMessage := by
  rcases h with h | ⟨hs, hhs, hbad⟩
  · simp [validate_header_token, h]
  · rcases hbad with hempty | ⟨h1, h2, h3⟩
    · simp [validate_header_token, hhs, hempty]
    · simp [validate_header_token, hhs, h1, h2, h3]

/-- Loop exit: once the elapsed clock reaches the 120-second budget, the
loop returns the timeout message without issuing another poll. -/
theorem verify_login_trace_aux_out (polls : Nat → PollData) (n : Nat)
    (hn : ¬ n * 5 < 120) :
    verify_login_trace_aux polls n = ⟨timeoutMessage, [], n * 5⟩ := by
  unfold verify_login_trace_aux
  simp [hn]

/-- Loop step: a poll response with no `access_token` and no
`expired_token` error ("keep waiting") issues exactly one poll at elapsed
time `5 * n` and continues with the next iteration. -/
theorem verify_login_trace_aux_pending_step (polls : Nat → PollData) (n : Nat)
    (hn : n * 5 < 120)
    (h1 : (polls n).access_token = none)
    (h2 : (polls n).error ≠ some "expired_token") :
    verify_login_trace_aux polls n =
      ⟨(verify_login_trace_aux polls (n + 1)).result,
       5 * n :: (verify_login_trace_aux polls (n + 1)).pollTimes,
       (verify_login_trace_aux polls (n + 1)).returnTime⟩ := by
  conv_lhs => rw [verify_login_trace_aux]
  simp [hn, h1, h2]

/-- Loop exit on `expired_token`: the iteration that sees the explicit
expiry error returns immediately, at elapsed time `5 * n`, having issued
only its own poll. -/
theorem verify_login_trace_aux_expired (polls : Nat → PollData) (n : Nat)
    (hn : n * 5 < 120)
    (h1 : (polls n).access_token = none)
    (h2 : (polls n).error = some "expired_token") :
    verify_login_trace_aux polls n = ⟨expiredMessage, [5 * n], 5 * n⟩ := by
  conv_lhs => rw [verify_login_trace_aux]
  simp [hn, h1, h2]

/-- Walking the loop across `m` consecutive "keep waiting" responses:
one poll per iteration, at 5-second cadence. -/
theorem verify_login_trace_aux_walk (polls : Nat → PollData) :
    ∀ (m n : Nat),
    (∀ k, n ≤ k → k < n + m →
      (polls k).access_token = none ∧ (polls k).error ≠ some "expired_token") →
    n + m ≤ 24 →
    verify_login_trace_aux polls n =
      ⟨(verify_login_trace_aux polls (n + m)).result,
       (List.range' n m).map (fun k => 5 * k) ++ (verify_login_trace_aux polls (n + m)).pollTimes,
       (verify_login_trace_aux polls (n + m)).returnTime⟩ := by
  intro m
  induction m with
  | zero => intro n _ _; simp
  | succ m ih =>
    intro n hpend hle
    have hn : n * 5 < 120 := by omega
    have hp := hpend n (Nat.le_refl n) (by omega)
    rw [verify_login_trace_aux_pending_step polls n hn hp.1 hp.2]
    rw [ih (n + 1) (fun k hk1 hk2 => hpend k (by omega) (by omega)) (by omega)]
    have harith : n + 1 + m = n + (m + 1) := by omega
    rw [harith]
    simp [List.range'_succ]

/-! ## Claims -/

/-- C1: for every inbound call to any token-gated operation, if the
credential header token is missing, empty, or does not start with one of
the three allow-listed prefixes (`ghu`, `gho`, `ghp`), the operation
fails with the single `AuthenticationRequired` `ToolError` — whose
message names the `initiate_login` operation — and issues no platform
HTTP request before that failure (the request log is empty). -/
theorem C1_auth_required_blocks_all_operations
    (env : List (String × String)) (ctx : Context) (h : invalidCredential ctx)
    (user_resp : UserResp) (repos_resp : ReposResp) (query : String)
    (search_resp : SearchResp)
    (owner repo branch path base_branch head_branch : String)
    (title pr_body new_content original_sha message : String)
    (tree_resp : TreeResp) (langs_resp : LangsResp) (sbom_resp : SbomResp)
    (readme_resp : ReadmeResp) (content_resp : ContentsResp)
    (history_resp : CommitsResp) (pr_resp : PullsResp)
    (cplatform : String → ContentsResp) (paths : List String) (now : Nat)
    (ref_resp : RefResp) (create : CreateRefPayload → Response)
    (uplatform : UpdatePayload → Response)
    (prplatform : PrPayload → PullCreateResp) :
    validate_header_token env ctx = Except.error authFailedMessage ∧
    get_user_context env ctx user_resp repos_resp = (Except.error authFailedMessage, []) ∧
    search_repositories env ctx query search_resp = (Except.error authFailedMessage, []) ∧
    get_repository_map env ctx owner repo branch tree_resp = (Except.error authFailedMessage, []) ∧
    get_project_overview env ctx owner repo langs_resp sbom_resp readme_resp = (Except.error authFailedMessage, []) ∧
    inspect_target_file env ctx owner repo path content_resp history_resp pr_resp = (Except.error authFailedMessage, []) ∧
    read_references env ctx owner repo cplatform paths = (Except.error authFailedMessage, []) ∧
    initialize_workspace env ctx owner repo base_branch now ref_resp create = (Except.error authFailedMessage, []) ∧
    commit_file_update env ctx owner repo branch path new_content original_sha message uplatform = (Except.error authFailedMessage, []) ∧
    submit_review_request env ctx owner repo head_branch title pr_body base_branch prplatform = (Except.error authFailedMessage, []) ∧
    (∃ pre post, authFailedMessage = pre ++ "initiate_login" ++ post) := by
  have hv := validate_header_token_invalid env ctx h
  refine ⟨hv, ?_, ?_, ?_, ?_, ?_, ?_, ?_, ?_, ?_, ?_⟩
  · simp [get_user_context, hv]
  · simp [search_repositories, hv]
  · simp [get_repository_map, hv]
  · simp [get_project_overview, hv]
  · simp [inspect_target_file, hv]
  · simp [read_references, hv]
  · simp [initialize_workspace, hv]
  · simp [commit_file_update, hv]
  · simp [submit_review_request, hv]
  · exact ⟨"Authentication Failed.\nThe tool attempted to access GitHub but no valid token was found header.\nPlease RUN the \x27",
      "\x27 tool now to fix this.", rfl⟩

/-- Witness for C1 at a concrete invalid input: a request whose headers
carry no `user-access-token` is rejected by the credential extractor and
`get_user_context` fails without issuing a request. -/
theorem C1_auth_required_blocks_all_operations_witness :
    validate_header_token [] { headers := some [("host", "example.org")] } =
      Except.error authFailedMessage ∧
    get_user_context [] { headers := some [("host", "example.org")] }
      { status_code := 200, text := "", login := some "octocat", name := none }
      { status_code := 200, text := "", repos := [] } =
      (Except.error authFailedMessage, []) :=
  have h := C1_auth_required_blocks_all_operations
    [] { headers := some [("host", "example.org")] }
    (Or.inr ⟨[("host", "example.org")], rfl, Or.inl rfl⟩)
    { status_code := 200, text := "", login := some "octocat", name := none }
    { status_code := 200, text := "", repos := [] }
    "q" { status_code := 200, text := "", items := [] }
    "o" "r" "main" "a.txt" "main" "feat" "t" "b" "nc" "sha1" "msg"
    { status_code := 200, text := "", truncated := false, tree := [] }
    { status_code := 200, text := "", keys := [] }
    { status_code := 200, text := "", packages := [] }
    { status_code := 200, text := "", content := none }
    { status_code := 200, text := "", content := none, sha := "" }
    { status_code := 200, text := "", commits := [] }
    { status_code := 200, text := "", pulls := [] }
    (fun _ => { status_code := 404, text := "", content := none, sha := "" })
    [] 0 { status_code := 200, text := "", sha := "" }
    (fun _ => { status_code := 201, text := "" })
    (fun _ => { status_code := 200, text := "" })
    (fun _ => { status_code := 201, text := "", html_url := "" })
  ⟨h.1, h.2.1⟩

/-- C4 (code bug): the credential extractor has no environment fallback.
Whatever the process environment holds — including a valid
`GITHUB_PERSONAL_ACCESS_TOKEN`, the very variable the login flow's
success message tells the user to configure — a call without the
`user-access-token` header fails with `AuthenticationRequired` instead of
succeeding with the environment-supplied token. -/
theorem C4_no_environment_fallback :
    (∀ env : List (String × String),
      validate_header_token env { headers := some [] } =
        Except.error authFailedMessage) ∧
    validate_header_token [("GITHUB_PERSONAL_ACCESS_TOKEN", "ghp_0123456789abcdef")]
      { headers := some [] } = Except.error authFailedMessage := by
  constructor
  · intro env
    rfl
  · rfl

/-- C2: device-flow polling terminates.  Against a token endpoint that
never returns `access_token` and never returns the `expired_token` error
code, `verify_login` returns the timeout message, in finite time no later
than the 120-second budget plus one 5-second poll interval (it returns at
exactly 120 s), having issued exactly one poll per loop iteration at the
constant 5-second cadence (24 polls, at elapsed times 0, 5, ..., 115). -/
theorem C2_verify_login_timeout (polls : Nat → PollData)
    (hpend : ∀ n, (polls n).access_token = none ∧
      (polls n).error ≠ some "expired_token") :
    verify_login polls = timeoutMessage ∧
    (verify_login_trace polls).returnTime = 120 ∧
    (verify_login_trace polls).returnTime ≤ 120 + 5 ∧
    (verify_login_trace polls).pollTimes = (List.range 24).map (fun k => 5 * k) := by
  have hwalk := verify_login_trace_aux_walk polls 24 0
    (fun k _ _ => hpend k) (by omega)
  have hout := verify_login_trace_aux_out polls 24 (by omega)
  simp only [Nat.zero_add] at hwalk
  rw [hout] at hwalk
  refine ⟨?_, ?_, ?_, ?_⟩
  · show (verify_login_trace polls).result = timeoutMessage
    rw [verify_login_trace, hwalk]
  · rw [verify_login_trace, hwalk]
  · rw [verify_login_trace, hwalk]
    show 24 * 5 ≤ 120 + 5
    omega
  · rw [verify_login_trace, hwalk]
    simp [List.range_eq_range']

/-- Witness for C2: against the endpoint that always answers
`authorization_pending`, `verify_login` times out at 120 s after 24
polls. -/
theorem C2_verify_login_timeout_witness :
    verify_login (fun _ => PollData.mk none (some "authorization_pending")) =
      timeoutMessage ∧
    (verify_login_trace (fun _ => PollData.mk none (some "authorization_pending"))).returnTime = 120 ∧
    (verify_login_trace (fun _ => PollData.mk none (some "authorization_pending"))).returnTime ≤ 120 + 5 ∧
    (verify_login_trace (fun _ => PollData.mk none (some "authorization_pending"))).pollTimes =
      (List.range 24).map (fun k => 5 * k) :=
  C2_verify_login_timeout
    (fun _ => PollData.mk none (some "authorization_pending"))
    (fun _ => ⟨rfl, by
      show some "authorization_pending" ≠ some "expired_token"
      decide⟩)

/-- C3: when the token endpoint answers `expired_token` (and no
`access_token`) on poll `N` within the budget, `verify_login` returns the
expired-code message immediately at poll `N`: it issues exactly the polls
0..N and no further ones, returns at elapsed time `5 * N` — strictly
before the 120-second budget elapses — and the expired message differs
from the timeout message. -/
theorem C3_verify_login_expired (polls : Nat → PollData) (N : Nat)
    (hN : N * 5 < 120)
    (hpend : ∀ k, k < N → (polls k).access_token = none ∧
      (polls k).error ≠ some "expired_token")
    (hexp1 : (polls N).access_token = none)
    (hexp2 : (polls N).error = some "expired_token") :
    verify_login polls = expiredMessage ∧
    (verify_login_trace polls).pollTimes = (List.range (N + 1)).map (fun k => 5 * k) ∧
    (verify_login_trace polls).returnTime = 5 * N ∧
    (verify_login_trace polls).returnTime < 120 ∧
    expiredMessage ≠ timeoutMessage := by
  have hwalk := verify_login_trace_aux_walk polls N 0
    (fun k _ hk => hpend k (by omega)) (by omega)
  have hterm := verify_login_trace_aux_expired polls N hN hexp1 hexp2
  simp only [Nat.zero_add] at hwalk
  rw [hterm] at hwalk
  refine ⟨?_, ?_, ?_, ?_, by decide⟩
  · show (verify_login_trace polls).result = expiredMessage
    rw [verify_login_trace, hwalk]
  · rw [verify_login_trace, hwalk]
    simp [List.range_succ, List.range_eq_range']
  · rw [verify_login_trace, hwalk]
  · rw [verify_login_trace, hwalk]
    show 5 * N < 120
    omega

/-- Witness for C3: against an endpoint that answers
`authorization_pending` on polls 0 and 1 and `expired_token` on poll 2,
`verify_login` returns the expired message at elapsed time 10, having
polled exactly three times. -/
theorem C3_verify_login_expired_witness :
    verify_login (fun n => PollData.mk none (if n < 2 then some "authorization_pending" else some "expired_token")) =
      expiredMessage ∧
    (verify_login_trace (fun n => PollData.mk none (if n < 2 then some "authorization_pending" else some "expired_token"))).pollTimes =
      (List.range 3).map (fun k => 5 * k) ∧
    (verify_login_trace (fun n => PollData.mk none (if n < 2 then some "authorization_pending" else some "expired_token"))).returnTime = 10 ∧
    (verify_login_trace (fun n => PollData.mk none (if n < 2 then some "authorization_pending" else some "expired_token"))).returnTime < 120 ∧
    expiredMessage ≠ timeoutMessage :=
  C3_verify_login_expired
    (fun n => PollData.mk none (if n < 2 then some "authorization_pending" else some "expired_token"))
    2 (by omega)
    (fun k hk => ⟨rfl, by
      show (if k < 2 then some "authorization_pending" else some "expired_token") ≠ some "expired_token"
      rw [if_pos hk]
      decide⟩)
    rfl
    (by show (if 2 < 2 then some "authorization_pending" else some "expired_token") = some "expired_token"
        decide)

/-- C5: when the platform answers 409 (stale content hash) to the update
request, `commit_file_update` returns the specific write-conflict
category — not the generic platform-error fallback — and the submitted
payload carries the caller-supplied `original_sha` as the
optimistic-concurrency precondition. -/
theorem C5_commit_conflict_category (env : List (String × String)) (ctx : Context)
    (owner repo branch path new_content original_sha message : String)
    (uplatform : UpdatePayload → Response)
    (htok : ∃ t, validate_header_token env ctx = Except.ok t)
    (h409 : (uplatform (commit_update_payload branch new_content original_sha message)).status_code = 409) :
    (commit_file_update env ctx owner repo branch path new_content original_sha message uplatform).1 =
      Except.ok ("Update failed: " ++
        "409 Conflict: The file has changed since you last read it (Git Conflict).") ∧
    (commit_update_payload branch new_content original_sha message).sha = original_sha ∧
    (∀ bodyText : String,
      "409 Conflict: The file has changed since you last read it (Git Conflict)." ≠
        "GitHub API Error " ++ bodyText) := by
  obtain ⟨t, ht⟩ := htok
  refine ⟨?_, rfl, ?_⟩
  · simp [commit_file_update, ht, parse_github_error, h409]
  · intro bodyText
    exact ne_append_of_not_startsWith _ _ _ (by decide)

/-- Witness for C5: a concrete authenticated call whose platform answers
409 yields exactly the conflict-category failure message. -/
theorem C5_commit_conflict_category_witness :
    (commit_file_update [] { headers := some [("user-access-token", "ghp_tok")] }
      "o" "r" "docs/update-1" "a.txt" "new text" "sha_old" "msg"
      (fun _ => Response.mk 409 "conflict")).1 =
      Except.ok ("Update failed: " ++
        "409 Conflict: The file has changed since you last read it (Git Conflict).") ∧
    (commit_update_payload "docs/update-1" "new text" "sha_old" "msg").sha = "sha_old" :=
  have h := C5_commit_conflict_category []
    { headers := some [("user-access-token", "ghp_tok")] }
    "o" "r" "docs/update-1" "a.txt" "new text" "sha_old" "msg"
    (fun _ => Response.mk 409 "conflict")
    ⟨"ghp_tok", rfl⟩ rfl
  ⟨h.1, h.2.1⟩

/-- C6: `read_references` isolates per-path failures.  For every mix of
succeeding and failing paths, the composed result is the newline join of
the per-path blocks, and those blocks contain a successful content block
for every succeeding path and an inline error marker (decode error or
translated HTTP error) for every failing path — each block depends only
on its own path's response, so a failing path never removes or blanks out
the others. -/
theorem C6_read_references_isolation (env : List (String × String)) (ctx : Context)
    (owner repo : String) (platform : String → ContentsResp) (paths : List String)
    (htok : ∃ t, validate_header_token env ctx = Except.ok t) :
    (read_references env ctx owner repo platform paths).1 =
      Except.ok (String.intercalate "\n" (read_references_results platform paths)) ∧
    ∀ p ∈ paths,
      ((platform p).status_code = 200 →
        ∀ c, (platform p).content = some c →
          ("--- REFERENCE: " ++ p ++ " ---\n" ++ c ++ "\n") ∈
            read_references_results platform paths) ∧
      ((platform p).status_code = 200 → (platform p).content = none →
        ("--- ERROR: Could not decode " ++ p ++ " ---\n") ∈
          read_references_results platform paths) ∧
      ((platform p).status_code ≠ 200 →
        ("--- ERROR: " ++ p ++ " (" ++ parse_github_error (platform p).toResponse ++ ") ---\n") ∈
          read_references_results platform paths) := by
  obtain ⟨t, ht⟩ := htok
  constructor
  · simp [read_references, ht]
  · intro p hp
    refine ⟨?_, ?_, ?_⟩
    · intro hs c hc
      have hblock : fetch_one platform p =
          "--- REFERENCE: " ++ p ++ " ---\n" ++ c ++ "\n" := by
        simp [fetch_one, hs, hc]
      exact hblock ▸ List.mem_map_of_mem (fetch_one platform) hp
    · intro hs hc
      have hblock : fetch_one platform p =
          "--- ERROR: Could not decode " ++ p ++ " ---\n" := by
        simp [fetch_one, hs, hc]
      exact hblock ▸ List.mem_map_of_mem (fetch_one platform) hp
    · intro hs
      have hblock : fetch_one platform p =
          "--- ERROR: " ++ p ++ " (" ++ parse_github_error (platform p).toResponse ++ ") ---\n" := by
        simp [fetch_one, hs]
      exact hblock ▸ List.mem_map_of_mem (fetch_one platform) hp

/-- Witness for C6, the spec's own example: with "a.txt" present and
"missing.txt" absent (404), the block list holds both the successful
block for "a.txt" and the inline error marker for "missing.txt". -/
theorem C6_read_references_isolation_witness :
    ("--- REFERENCE: " ++ "a.txt" ++ " ---\n" ++ "alpha" ++ "\n") ∈
      read_references_results
        (fun p => if p = "a.txt" then ContentsResp.mk (Response.mk 200 "") (some "alpha") "s1" else ContentsResp.mk (Response.mk 404 "nf") none "")
        ["a.txt", "missing.txt"] ∧
    ("--- ERROR: " ++ "missing.txt" ++ " (" ++
        parse_github_error ((fun p => if p = "a.txt" then ContentsResp.mk (Response.mk 200 "") (some "alpha") "s1" else ContentsResp.mk (Response.mk 404 "nf") none "") "missing.txt").toResponse ++ ") ---\n") ∈
      read_references_results
        (fun p => if p = "a.txt" then ContentsResp.mk (Response.mk 200 "") (some "alpha") "s1" else ContentsResp.mk (Response.mk 404 "nf") none "")
        ["a.txt", "missing.txt"] :=
  have h := C6_read_references_isolation []
    { headers := some [("user-access-token", "ghp_tok")] } "o" "r"
    (fun p => if p = "a.txt" then ContentsResp.mk (Response.mk 200 "") (some "alpha") "s1" else ContentsResp.mk (Response.mk 404 "nf") none "")
    ["a.txt", "missing.txt"] ⟨"ghp_tok", rfl⟩
  ⟨(h.2 "a.txt" (by decide)).1 (by decide) "alpha" (by decide),
   (h.2 "missing.txt" (by decide)).2.2 (by decide)⟩

/-- C7: `get_project_overview` never hard-fails on sub-fetch errors.
For every combination of failures among the three sub-fetches it still
returns the composite overview, in which each failed sub-result is
independently replaced by its placeholder (each placeholder is a function
of that sub-response alone), and a successfully fetched README is
truncated to its first 500 characters after decoding. -/
theorem C7_overview_degrades_independently (env : List (String × String))
    (ctx : Context) (owner repo : String) (langs_resp : LangsResp)
    (sbom_resp : SbomResp) (readme_resp : ReadmeResp)
    (htok : ∃ t, validate_header_token env ctx = Except.ok t) :
    (get_project_overview env ctx owner repo langs_resp sbom_resp readme_resp).1 =
      Except.ok ("PROJECT OVERVIEW: " ++ owner ++ "/" ++ repo ++
        "\n===================================\nLanguages: " ++
        String.intercalate ", " (overview_languages langs_resp) ++
        "\nTech Stack: " ++
        String.intercalate ", " ((overview_stack sbom_resp).take 10) ++
        "\nREADME Preview:\n" ++ overview_readme readme_resp) ∧
    (langs_resp.status_code ≠ 200 → overview_languages langs_resp = ["Unknown"]) ∧
    (sbom_resp.status_code ≠ 200 →
      overview_stack sbom_resp = ["(Dependency Graph disabled for this repo)"]) ∧
    (readme_resp.status_code ≠ 200 → overview_readme readme_resp = "No README found.") ∧
    (readme_resp.status_code = 200 → readme_resp.content = none →
      overview_readme readme_resp = "Error decoding README.") ∧
    (∀ c, readme_resp.status_code = 200 → readme_resp.content = some c →
      overview_readme readme_resp = c.take 500 ++ "...") := by
  obtain ⟨t, ht⟩ := htok
  refine ⟨?_, ?_, ?_, ?_, ?_, ?_⟩
  · simp [get_project_overview, ht]
  · intro hl; simp [overview_languages, hl]
  · intro hs; simp [overview_stack, hs]
  · intro hr; simp [overview_readme, hr]
  · intro hr hc; simp [overview_readme, hr, hc]
  · intro c hr hc; simp [overview_readme, hr, hc]

/-- Witness for C7: all three sub-fetches fail (404) and the call still
returns the composite overview built from the three placeholders. -/
theorem C7_overview_degrades_independently_witness :
    (get_project_overview [] { headers := some [("user-access-token", "ghp_tok")] }
      "o" "r" (LangsResp.mk (Response.mk 404 "") [])
      (SbomResp.mk (Response.mk 404 "") [])
      (ReadmeResp.mk (Response.mk 404 "") none)).1 =
      Except.ok ("PROJECT OVERVIEW: " ++ "o" ++ "/" ++ "r" ++
        "\n===================================\nLanguages: " ++
        String.intercalate ", " (overview_languages (LangsResp.mk (Response.mk 404 "") [])) ++
        "\nTech Stack: " ++
        String.intercalate ", " ((overview_stack (SbomResp.mk (Response.mk 404 "") [])).take 10) ++
        "\nREADME Preview:\n" ++ overview_readme (ReadmeResp.mk (Response.mk 404 "") none)) ∧
    overview_languages (LangsResp.mk (Response.mk 404 "") []) = ["Unknown"] ∧
    overview_stack (SbomResp.mk (Response.mk 404 "") []) =
      ["(Dependency Graph disabled for this repo)"] ∧
    overview_readme (ReadmeResp.mk (Response.mk 404 "") none) = "No README found." :=
  have h := C7_overview_degrades_independently []
    { headers := some [("user-access-token", "ghp_tok")] } "o" "r"
    (LangsResp.mk (Response.mk 404 "") [])
    (SbomResp.mk (Response.mk 404 "") [])
    (ReadmeResp.mk (Response.mk 404 "") none)
    ⟨"ghp_tok", rfl⟩
  ⟨h.1, h.2.1 (by decide), h.2.2.1 (by decide), h.2.2.2.1 (by decide)⟩

/-- C8: when the platform's tree response carries `truncated: true`,
`get_repository_map` returns the distinct partial-structure warning —
which is neither empty nor of the shape of any (possibly
size-limit-truncated) listing; otherwise the listing is exactly the
blob-only (file-only) paths, bounded to the first 200. -/
theorem C8_repository_map_truncation (env : List (String × String)) (ctx : Context)
    (owner repo branch : String) (resp : TreeResp)
    (htok : ∃ t, validate_header_token env ctx = Except.ok t)
    (h200 : resp.status_code = 200) :
    (resp.truncated = true →
      (get_repository_map env ctx owner repo branch resp).1 = Except.ok repoTooLargeWarning ∧
      (∀ o r listing : String,
        repoTooLargeWarning ≠ "Repository Map for " ++ (o ++ ("/" ++ (r ++ (":\n\n" ++ listing))))) ∧
      repoTooLargeWarning ≠ "") ∧
    (resp.truncated = false →
      (get_repository_map env ctx owner repo branch resp).1 =
        Except.ok ("Repository Map for " ++ owner ++ "/" ++ repo ++ ":\n\n" ++
          String.intercalate "\n" ((repositoryMapFiles resp).take 200)) ∧
      repositoryMapFiles resp =
        (resp.tree.filter (fun item => item.type = "blob")).map (fun item => item.path)) := by
  obtain ⟨t, ht⟩ := htok
  constructor
  · intro htr
    refine ⟨?_, ?_, by decide⟩
    · simp [get_repository_map, ht, h200, htr]
    · intro o r listing
      exact ne_append_of_not_startsWith _ _ _ (by decide)
  · intro htr
    refine ⟨?_, rfl⟩
    simp [get_repository_map, ht, h200, htr]

/-- Witness for C8: a concrete authenticated call whose tree response is
flagged truncated returns exactly the partial-structure warning, and that
warning is not the empty string. -/
theorem C8_repository_map_truncation_witness :
    (get_repository_map [] { headers := some [("user-access-token", "ghp_tok")] }
      "o" "r" "main"
      (TreeResp.mk (Response.mk 200 "") true [TreeEntry.mk "a.py" "blob"])).1 =
      Except.ok repoTooLargeWarning ∧
    repoTooLargeWarning ≠ "" :=
  have h := C8_repository_map_truncation []
    { headers := some [("user-access-token", "ghp_tok")] } "o" "r" "main"
    (TreeResp.mk (Response.mk 200 "") true [TreeEntry.mk "a.py" "blob"])
    ⟨"ghp_tok", rfl⟩ rfl
  ⟨(h.1 rfl).1, (h.1 rfl).2.2⟩

/-- C9: `read_references` preserves input order and arity — the composed
result is the newline join of exactly one block per input path, in input
order (block `i` is the fetch of path `i`), one contents request is
issued per path in the same order, and the empty path list yields the
empty result with no platform request. -/
theorem C9_read_references_order_arity (env : List (String × String))
    (ctx : Context) (owner repo : String) (platform : String → ContentsResp)
    (paths : List String)
    (htok : ∃ t, validate_header_token env ctx = Except.ok t) :
    read_references env ctx owner repo platform paths =
      (Except.ok (String.intercalate "\n" (read_references_results platform paths)),
       paths.map (contentsUrl owner repo)) ∧
    (read_references_results platform paths).length = paths.length ∧
    (∀ i, (read_references_results platform paths).get? i =
      (paths.get? i).map (fetch_one platform)) ∧
    (paths = [] →
      read_references env ctx owner repo platform paths = (Except.ok "", [])) := by
  obtain ⟨t, ht⟩ := htok
  refine ⟨?_, ?_, ?_, ?_⟩
  · simp [read_references, ht]
  · simp [read_references_results]
  · intro i
    simp [read_references_results, List.get?_map]
  · intro hp
    subst hp
    simp only [read_references, ht, read_references_results, List.map_nil]
    rfl

/-- Witness for C9: with two concrete paths the call returns one block
per path in input order and logs one contents request per path; with the
empty list it returns the empty result and issues no request. -/
theorem C9_read_references_order_arity_witness :
    (read_references_results
      (fun _ => ContentsResp.mk (Response.mk 200 "") (some "x") "s")
      ["a.txt", "b.txt"]).length = (["a.txt", "b.txt"] : List String).length ∧
    read_references [] { headers := some [("user-access-token", "ghp_tok")] }
      "o" "r" (fun _ => ContentsResp.mk (Response.mk 200 "") (some "x") "s") [] =
      (Except.ok "", []) :=
  have h2 := C9_read_references_order_arity []
    { headers := some [("user-access-token", "ghp_tok")] } "o" "r"
    (fun _ => ContentsResp.mk (Response.mk 200 "") (some "x") "s")
    ["a.txt", "b.txt"] ⟨"ghp_tok", rfl⟩
  have h0 := C9_read_references_order_arity []
    { headers := some [("user-access-token", "ghp_tok")] } "o" "r"
    (fun _ => ContentsResp.mk (Response.mk 200 "") (some "x") "s")
    [] ⟨"ghp_tok", rfl⟩
  ⟨h2.2.1, h0.2.2.2 rfl⟩

/-- C10: when the file fetch succeeds but the commit-history sub-fetch
fails or returns an empty commit list, `inspect_target_file` issues no
commit-to-pull-request request (the request log stops at the commits
request), and still returns the composed document with the decoded
content, the content hash, an empty history section, and the
"No associated PR found." placeholder. -/
theorem C10_inspect_skips_pr_fetch (env : List (String × String)) (ctx : Context)
    (owner repo path : String) (content_resp : ContentsResp)
    (history_resp : CommitsResp) (pr_resp : PullsResp)
    (htok : ∃ t, validate_header_token env ctx = Except.ok t)
    (hstatus : content_resp.status_code = 200)
    (c : String) (hcontent : content_resp.content = some c)
    (hhist : history_resp.status_code ≠ 200 ∨ history_resp.commits = []) :
    inspect_target_file env ctx owner repo path content_resp history_resp pr_resp =
      (Except.ok ("DEEP INSPECTION: " ++ path ++ "\nFile SHA: " ++ content_resp.sha ++
        " (Required for updates)\n===================================\nRecent History:\n" ++
        (historyFold []).1 ++ "\nBusiness Intent (PR):\n" ++ "No associated PR found." ++
        "\n===================================\n" ++ c),
       [contentsUrl owner repo path, commitsUrl owner repo path]) ∧
    historyFold [] = ("", "") := by
  obtain ⟨t, ht⟩ := htok
  refine ⟨?_, rfl⟩
  rcases hhist with hh | hh
  · simp [inspect_target_file, ht, hstatus, hcontent, hh, historyFold]
  · simp [inspect_target_file, ht, hstatus, hcontent, hh, historyFold]

/-- Witness for C10: a concrete successful file fetch whose history fetch
answers 404 yields the composed document with empty history and the
no-PR placeholder, and the request log holds only the contents and
commits requests. -/
theorem C10_inspect_skips_pr_fetch_witness :
    inspect_target_file [] { headers := some [("user-access-token", "ghp_tok")] }
      "o" "r" "a.py"
      (ContentsResp.mk (Response.mk 200 "") (some "print(1)") "sha_a")
      (CommitsResp.mk (Response.mk 404 "") [])
      (PullsResp.mk (Response.mk 200 "") [PullEntry.mk 7 "t" "b"]) =
      (Except.ok ("DEEP INSPECTION: " ++ "a.py" ++ "\nFile SHA: " ++ "sha_a" ++
        " (Required for updates)\n===================================\nRecent History:\n" ++
        (historyFold []).1 ++ "\nBusiness Intent (PR):\n" ++ "No associated PR found." ++
        "\n===================================\n" ++ "print(1)"),
       [contentsUrl "o" "r" "a.py", commitsUrl "o" "r" "a.py"]) :=
  (C10_inspect_skips_pr_fetch []
    { headers := some [("user-access-token", "ghp_tok")] } "o" "r" "a.py"
    (ContentsResp.mk (Response.mk 200 "") (some "print(1)") "sha_a")
    (CommitsResp.mk (Response.mk 404 "") [])
    (PullsResp.mk (Response.mk 200 "") [PullEntry.mk 7 "t" "b"])
    ⟨"ghp_tok", rfl⟩ rfl "print(1)" rfl (Or.inl (by decide))).1

end SmartCoding
